import Mathlib

set_option maxHeartbeats 1000000
set_option maxRecDepth 10000

/-!
Shallow embedding of `Firmware/MotorControl/utils.cpp` from the ODrive
motor-control firmware.

The space-vector modulator `SVM` and its helpers are embedded over an
arbitrary linear ordered field `F`, with the two constants
`one_by_sqrt3` and `two_by_sqrt3` taken as explicit parameters: they are
defined in `utils.hpp`, which is not part of the sources, and per the
spec they denote `1/√3` and `2/√3`; the theorems instantiate them at
`(Real.sqrt 3)⁻¹` and `2 * (Real.sqrt 3)⁻¹`.

`fast_atan2` is embedded over `ℚ`, with the decimal literals of the
source carried over exactly and `FLT_MIN = 2⁻¹²⁶` for the
`std::numeric_limits<float>::min()` guard.

A second embedding `SVM_fp` models IEEE-754 NaN propagation: a float is
`Option ℚ` where `none` is NaN, arithmetic propagates `none`, and every
ordered comparison involving `none` is false.
-/

/-- Result tuple of `SVM`: three PWM timings and the validity flag,
mirroring `std::tuple<float, float, float, bool>`. -/
structure SVMResult (F : Type) where
  tA : F
  tB : F
  tC : F
  valid : Bool

/-- Sextant classification of `SVM` (utils.cpp lines 13-41): split by the
sign of `beta`, then of `alpha`, then compare `±one_by_sqrt3 * beta`
against `alpha`. -/
def sextant {F : Type} [LinearOrderedField F] (one_by_sqrt3 : F) (alpha beta : F) : ℕ :=
  if 0 ≤ beta then
    if 0 ≤ alpha then
      -- quadrant I
      if alpha < one_by_sqrt3 * beta then 2 else 1
    else
      -- quadrant II
      if alpha < -one_by_sqrt3 * beta then 3 else 2
  else
    if 0 ≤ alpha then
      -- quadrant IV
      if alpha < -one_by_sqrt3 * beta then 5 else 6
    else
      -- quadrant III
      if alpha < one_by_sqrt3 * beta then 4 else 5

/-- Per-sextant on-time and PWM-timing formulas of `SVM`
(utils.cpp lines 43-116, the six `switch` cases). The `switch` has no
`default`; the catch-all `(0, 0, 0)` is unreachable from `sextant`. -/
def sextantFormulas {F : Type} [LinearOrderedField F] (one_by_sqrt3 two_by_sqrt3 : F)
    (n : ℕ) (alpha beta : F) : F × F × F :=
  match n with
  | 1 =>
    let t1 := alpha - one_by_sqrt3 * beta
    let t2 := two_by_sqrt3 * beta
    let tA := (1 - t1 - t2) * (1 / 2)
    let tB := tA + t1
    let tC := tB + t2
    (tA, tB, tC)
  | 2 =>
    let t2 := alpha + one_by_sqrt3 * beta
    let t3 := -alpha + one_by_sqrt3 * beta
    let tB := (1 - t2 - t3) * (1 / 2)
    let tA := tB + t3
    let tC := tA + t2
    (tA, tB, tC)
  | 3 =>
    let t3 := two_by_sqrt3 * beta
    let t4 := -alpha - one_by_sqrt3 * beta
    let tB := (1 - t3 - t4) * (1 / 2)
    let tC := tB + t3
    let tA := tC + t4
    (tA, tB, tC)
  | 4 =>
    let t4 := -alpha + one_by_sqrt3 * beta
    let t5 := -two_by_sqrt3 * beta
    let tC := (1 - t4 - t5) * (1 / 2)
    let tB := tC + t5
    let tA := tB + t4
    (tA, tB, tC)
  | 5 =>
    let t5 := -alpha - one_by_sqrt3 * beta
    let t6 := alpha - one_by_sqrt3 * beta
    let tC := (1 - t5 - t6) * (1 / 2)
    let tA := tC + t5
    let tB := tA + t6
    (tA, tB, tC)
  | 6 =>
    let t6 := -two_by_sqrt3 * beta
    let t1 := alpha + one_by_sqrt3 * beta
    let tA := (1 - t6 - t1) * (1 / 2)
    let tC := tA + t1
    let tB := tC + t6
    (tA, tB, tC)
  | _ => (0, 0, 0)

/-- `SVM` (utils.cpp lines 9-123): classify the sextant, compute the
per-sextant timings, and report validity iff all three timings lie in
`[0, 1]`. -/
def SVM {F : Type} [LinearOrderedField F] (one_by_sqrt3 two_by_sqrt3 : F)
    (alpha beta : F) : SVMResult F :=
  let p := sextantFormulas one_by_sqrt3 two_by_sqrt3 (sextant one_by_sqrt3 alpha beta) alpha beta
  { tA := p.1, tB := p.2.1, tC := p.2.2,
    valid := decide (0 ≤ p.1) && decide (p.1 ≤ 1)
          && decide (0 ≤ p.2.1) && decide (p.2.1 ≤ 1)
          && decide (0 ≤ p.2.2) && decide (p.2.2 ≤ 1) }

/-- `std::numeric_limits<float>::min()`, the smallest positive normal
single-precision value, `2⁻¹²⁶`. -/
def flt_min : ℚ := 1 / 2 ^ 126

/-- `fast_atan2` (utils.cpp lines 126-147), with the source's decimal
literals carried over exactly as rationals. -/
def fast_atan2 (y x : ℚ) : ℚ :=
  let abs_y := |y|
  let abs_x := |x|
  let a := min abs_x abs_y / (max abs_x abs_y + flt_min)
  let s := a * a
  let r := ((-0.0464964749 * s + 0.15931422) * s - 0.327622764) * s * a + a
  let r1 := if abs_x < abs_y then 1.57079637 - r else r
  let r2 := if x < 0 then 3.14159274 - r1 else r1
  if y < 0 then -r2 else r2

/-- Unsigned 32-bit subtraction `a - b` on naturals reduced mod `2^32`,
modelling the `uint32_t` subtraction in `deadline_to_timeout`. -/
def u32_sub (a b : ℕ) : ℕ := (a % 2 ^ 32 + (2 ^ 32 - b % 2 ^ 32)) % 2 ^ 32

/-- `deadline_to_timeout` (utils.cpp lines 152-156). Modelled from the
spec: the current time `now_ms`, read from the external
`osKernelSysTick` source in the firmware, is passed as a parameter. The
test `timeout_ms & 0x80000000` is bit 31 of the 32-bit difference. -/
def deadline_to_timeout (now_ms deadline_ms : ℕ) : ℕ :=
  let timeout_ms := u32_sub deadline_ms now_ms
  if timeout_ms.testBit 31 then 0 else timeout_ms

/-- A single-precision value in the NaN-aware model: `none` is NaN. -/
abbrev FP : Type := Option ℚ

/-- NaN-propagating addition. -/
def fadd : FP → FP → FP
  | some a, some b => some (a + b)
  | _, _ => none

/-- NaN-propagating subtraction. -/
def fsub : FP → FP → FP
  | some a, some b => some (a - b)
  | _, _ => none

/-- NaN-propagating multiplication. -/
def fmul : FP → FP → FP
  | some a, some b => some (a * b)
  | _, _ => none

/-- NaN-propagating negation. -/
def fneg : FP → FP
  | some a => some (-a)
  | _ => none

/-- IEEE `>=`: false whenever either operand is NaN. -/
def fge : FP → FP → Bool
  | some a, some b => decide (b ≤ a)
  | _, _ => false

/-- IEEE `>`: false whenever either operand is NaN. -/
def fgt : FP → FP → Bool
  | some a, some b => decide (b < a)
  | _, _ => false

/-- IEEE `<=`: false whenever either operand is NaN. -/
def fle : FP → FP → Bool
  | some a, some b => decide (a ≤ b)
  | _, _ => false

/-- Sextant classification of `SVM` in the NaN-aware float model: the
same comparisons as `sextant`, but any comparison with NaN is false and
so takes the `else` branch. -/
def sextant_fp (one_by_sqrt3 : ℚ) (alpha beta : FP) : ℕ :=
  if fge beta (some 0) then
    if fge alpha (some 0) then
      if fgt (fmul (some one_by_sqrt3) beta) alpha then 2 else 1
    else
      if fgt (fmul (fneg (some one_by_sqrt3)) beta) alpha then 3 else 2
  else
    if fge alpha (some 0) then
      if fgt (fmul (fneg (some one_by_sqrt3)) beta) alpha then 5 else 6
    else
      if fgt (fmul (some one_by_sqrt3) beta) alpha then 4 else 5

/-- Per-sextant formulas of `SVM` in the NaN-aware float model. -/
def sextantFormulas_fp (one_by_sqrt3 two_by_sqrt3 : ℚ) (n : ℕ) (alpha beta : FP) :
    FP × FP × FP :=
  let o := some one_by_sqrt3
  let t := some two_by_sqrt3
  let half : FP := some (1 / 2)
  let one : FP := some 1
  match n with
  | 1 =>
    let t1 := fsub alpha (fmul o beta)
    let t2 := fmul t beta
    let tA := fmul (fsub (fsub one t1) t2) half
    let tB := fadd tA t1
    let tC := fadd tB t2
    (tA, tB, tC)
  | 2 =>
    let t2 := fadd alpha (fmul o beta)
    let t3 := fadd (fneg alpha) (fmul o beta)
    let tB := fmul (fsub (fsub one t2) t3) half
    let tA := fadd tB t3
    let tC := fadd tA t2
    (tA, tB, tC)
  | 3 =>
    let t3 := fmul t beta
    let t4 := fsub (fneg alpha) (fmul o beta)
    let tB := fmul (fsub (fsub one t3) t4) half
    let tC := fadd tB t3
    let tA := fadd tC t4
    (tA, tB, tC)
  | 4 =>
    let t4 := fadd (fneg alpha) (fmul o beta)
    let t5 := fmul (fneg t) beta
    let tC := fmul (fsub (fsub one t4) t5) half
    let tB := fadd tC t5
    let tA := fadd tB t4
    (tA, tB, tC)
  | 5 =>
    let t5 := fsub (fneg alpha) (fmul o beta)
    let t6 := fsub alpha (fmul o beta)
    let tC := fmul (fsub (fsub one t5) t6) half
    let tA := fadd tC t5
    let tB := fadd tA t6
    (tA, tB, tC)
  | 6 =>
    let t6 := fmul (fneg t) beta
    let t1 := fadd alpha (fmul o beta)
    let tA := fmul (fsub (fsub one t6) t1) half
    let tC := fadd tA t1
    let tB := fadd tC t6
    (tA, tB, tC)
  | _ => (none, none, none)

/-- `SVM` in the NaN-aware float model. -/
def SVM_fp (one_by_sqrt3 two_by_sqrt3 : ℚ) (alpha beta : FP) : SVMResult FP :=
  let p := sextantFormulas_fp one_by_sqrt3 two_by_sqrt3
             (sextant_fp one_by_sqrt3 alpha beta) alpha beta
  { tA := p.1, tB := p.2.1, tC := p.2.2,
    valid := fge p.1 (some 0) && fle p.1 (some 1)
          && fge p.2.1 (some 0) && fle p.2.1 (some 1)
          && fge p.2.2 (some 0) && fle p.2.2 (some 1) }
/-- `lookup_table_t` (declared in `utils.hpp`, absent from the sources).
Modelled from the spec: an immutable table of samples bundled with its
origin offset and domain span. -/
structure lookup_table_t where
  table : List ℚ
  origin : ℚ
  span : ℚ

/-- `pdf_table` (utils.cpp lines 191-706): the precomputed Gaussian pdf
sample table, with the source's decimal literals carried over exactly. -/
def pdf_table : lookup_table_t :=
  { table := [
      0.3989422804014327, 0.3989300581391332, 0.3988933935988851, 0.3988322935199517,
      0.39874676913214424, 0.3986368361523825, 0.39850251477988063, 0.39834382968996185,
      0.3981608100265035, 0.39795348939301645, 0.3977219058423624, 0.39746610186511305,
      0.3971861243765573, 0.39688202470236067, 0.3965538585628836, 0.3962016860561666,
      0.3958255716395864, 0.39542558411019496, 0.3950017965837461, 0.3945542864724213,
      0.3940831354612623, 0.3935884294833223, 0.3930702586935447, 0.3925287174413817,
      0.3919639042421633, 0.39137592174723046, 0.3907648767128433, 0.3901308799678786,
      0.38947404638033023, 0.38879449482262635, 0.38809234813577786, 0.38736773309237443,
      0.3866207803584418, 0.3858516244541779, 0.3850604037135844, 0.3842472602430091,
      0.38341233987861806, 0.3825557921428152, 0.38167777019962623, 0.3807784308090673,
      0.3798579342805163, 0.37891644442510614, 0.377954128507161, 0.3769711571946941,
      0.3759677045089885, 0.37494394777328155, 0.37390006756057426, 0.37283624764058665,
      0.3717526749258812, 0.37064953941717693, 0.3695270341478755, 0.36838535512782267,
      0.367224701286328, 0.36604527441446577, 0.36484727910668047, 0.36363092270172065,
      0.3623964152229252, 0.36114396931788534, 0.3598738001975069, 0.35858612557449837,
      0.3572811656013071, 0.35595914280753055, 0.35462028203682544, 0.353264810383342,
      0.35189295712770635, 0.35050495367257717, 0.3491010334778021, 0.3476814319951985,
      0.3462463866029853, 0.34479613653988894, 0.3433309228389523, 0.3418509882610688,
      0.34035657722826945, 0.33884793575678757, 0.3373253113899265, 0.33578895313075613,
      0.3342391113746637, 0.33267603784178407, 0.33109998550933467, 0.3295112085438813,
      0.32790996223355795, 0.3262965029202688, 0.3246710879318937, 0.32303397551452523,
      0.32138542476475995, 0.3197256955620692, 0.3180550485012739, 0.3163737448251472,
      0.31468204635716945, 0.3129802154344589, 0.31126851484090257, 0.3095472077405091,
      0.30781655761100957, 0.30607682817772597, 0.30432828334773276, 0.30257118714433284,
      0.30080580364187, 0.2990323969009004, 0.2972512309037446, 0.29546256949044136,
      0.2936666762951241, 0.29186381468284217, 0.29005424768684485, 0.28823823794635123,
      0.28641604764482365, 0.28458793844876473, 0.28275417144705794, 0.28091500709086953,
      0.2790707051341302, 0.2772215245746158, 0.2753677235956436, 0.2735095595084014,
      0.2716472886949274, 0.26978116655175655, 0.2679114474342497, 0.26603838460162144,
      0.2641622301626818, 0.2622832350223072, 0.26040164882865413, 0.2585177199211308,
      0.2566316952791402, 0.2547438204716065, 0.2528543396073, 0.2509634952859709,
      0.24907152855030454, 0.24717867883871014, 0.2452851839389532, 0.24339127994264306,
      0.24149720120058496, 0.23960318027900687, 0.23770944791667026, 0.23581623298287352,
      0.23392376243635668, 0.23203226128511475, 0.23014195254712805, 0.22825305721201555,
      0.22636579420361877, 0.22448038034352158, 0.22259703031551226, 0.22071595663099206,
      0.2188373695953363, 0.2169614772752113, 0.21508848546685153, 0.21321859766530027,
      0.2113520150346169, 0.20948893637905314, 0.2076295581152005, 0.2057740742451112,
      0.20392267633039232, 0.20207555346727554, 0.2002328922626626, 0.1983948768111455,
      0.1965616886730021, 0.19473350685316576, 0.192910507781168, 0.19109286529205227,
      0.18928075060825697, 0.18747433232246544, 0.18567377638141933, 0.18387924607069356,
      0.18209090200042746, 0.18030890209200973, 0.17853340156571182, 0.17676455292926568,
      0.1750025059673803, 0.17324740773219213, 0.17149940253464305, 0.1697586319367805,
      0.16802523474497263, 0.16629934700403215, 0.16458110199224193, 0.1628706302172743,
      0.1611680594129971, 0.15947351453715822, 0.15778711776993998, 0.15610898851337562,
      0.154439243391618, 0.15277799625205232, 0.15112535816724304, 0.14948143743770526,
      0.14784633959549104, 0.14622016740858024, 0.14460302088606564, 0.14299499728412188,
      0.1413961911127468, 0.13980669414326538, 0.1382265954165837, 0.13665598125218248,
      0.13509493525783814, 0.13354353834005975, 0.13200186871522993, 0.13047000192143737,
      0.12894801083098936, 0.12743596566359075, 0.12593393400017808, 0.12444198079739531,
      0.12296016840269851, 0.12148855657007684, 0.12002720247637659, 0.11857616073821506,
      0.1171354834294712, 0.1157052200993395, 0.114285417790934, 0.11287612106042864,
      0.11147737199672052, 0.11008921024160268, 0.10871167301043234, 0.10734479511328113,
      0.1059886089765538, 0.10464314466506122, 0.10330842990453411, 0.10198449010456379,
      0.10067134838195604, 0.09936902558448425, 0.0980775403150281, 0.09679690895608406,
      0.09552714569463379, 0.09426826254735693, 0.09302026938617428, 0.09178317396410805,
      0.09055698194144524, 0.08934169691219071, 0.0881373204307967, 0.08694385203915467,
      0.08576128929383685, 0.08458962779357368, 0.08342886120695409, 0.0822789813003355,
      0.08113997796595035, 0.08001183925019638, 0.0788945513820977, 0.07778809880192387,
      0.0766924641899544, 0.07560762849537611, 0.07453357096530094, 0.07347026917389209,
      0.0724176990515858, 0.07137583491439758, 0.07034464949330013, 0.06932411396366181,
      0.06831419797473372, 0.0673148696791741, 0.0663260957625987, 0.06534784147314576,
      0.06438007065104494, 0.0634227457581791, 0.06247582790762827, 0.06153927689318547,
      0.060613051218833744, 0.05969710812817459, 0.0587914036337974, 0.05789589254658028,
      0.05701052850491276, 0.05613526400383048, 0.05527005042405302, 0.054414838060915446,
      0.053569576153184834, 0.05273421291175291, 0.05190869554819628, 0.05109297030319617,
      0.05028698247480892, 0.04949067644657963, 0.04870399571549143, 0.047926882919742154,
      0.047159279866341525, 0.04640112755852123, 0.0456523662229513, 0.044912935336755916,
      0.044182773654321404, 0.04346181923389076, 0.04275000946393813, 0.042047281089317434,
      0.041353570237178644, 0.04066881244264677, 0.03999294267425798, 0.03932589535914722,
      0.03866760440798265, 0.03801800323964162, 0.03737702480562407, 0.036744601614198284,
      0.0361206657542751, 0.03550514891900595, 0.03489798242910156, 0.034299097255866884,
      0.033708424043948984, 0.033125893133794375, 0.03255143458381279, 0.031984978192244364,
      0.03142645351872707, 0.03087578990556199, 0.030332916498673985, 0.029797762268265478,
      0.029270256029160772, 0.028750326460839443, 0.028237902127156742, 0.02773291149574952,
      0.02723528295712593, 0.026744944843437687, 0.02626182544693405, 0.025785853038096006,
      0.02531695588345019, 0.024855062263061407, 0.024400100487703875, 0.023951998915710208,
      0.023510685969497996, 0.02307609015177397, 0.02264814006141581, 0.02222676440903168,
      0.02181189203219763, 0.02140345191037351, 0.021001373179497945, 0.020605585146262845,
      0.0202160173020685, 0.019832599336659852, 0.019455261151445417, 0.019083932872499668,
      0.018718544863250305, 0.018359027736851587, 0.018005312368245565, 0.017657329905912563,
      0.01731501178331255, 0.016978289730019254, 0.016647095782549085, 0.016321362294886597,
      0.016001021948708605, 0.015686007763309147, 0.01537625310522766, 0.015071691697582445,
      0.01477225762911202, 0.014477885362926692, 0.014188509744973016, 0.013904066012213808,
      0.013624489800526189, 0.01334971715232059, 0.013079684523883521, 0.012814328792447023,
      0.012553587262987598, 0.012297397674757666, 0.012045698207552783, 0.011798427487717466,
      0.0115555245938929, 0.011316929062509659, 0.011082580893028776, 0.010852420552934354,
      0.010626388982481028, 0.010404427599199633, 0.010186478302164537, 0.009972483476025959,
      0.009762385994810748, 0.009556129225495048, 0.009353657031352429, 0.009154913775080991,
      0.008959844321712818, 0.008768394041309508, 0.0085805088114473, 0.008396135019495364,
      0.008215219564690799, 0.008037709860013986, 0.007863553833867946, 0.007692699931565255,
      0.007525097116626139, 0.0073606948718913405, 0.0071994432004534835, 0.007041292626410458,
      0.00688619419544446, 0.00673409947523025, 0.0065849605556763625, 0.006438730049002751,
      0.0062953610896584675, 0.006154807334082934, 0.006017022960314446, 0.005881962667449388,
      0.005749581674955691, 0.005619835721844013, 0.005492681065700254, 0.005368074481582783,
      0.005245973260787816, 0.005126335209486422, 0.005009118647236573, 0.004894282405373627,
      0.004781785825282496, 0.004671588756554979, 0.00456365155503548, 0.004457935080758396,
      0.0043544006957804355, 0.004253010261911042, 0.004153726138344199, 0.004056511179194654,
      0.003961328730941773, 0.0038681426297840424, 0.0037769171989073106, 0.003687617245669815,
      0.0036002080587068832, 0.0035146554049583175, 0.0034309255266213863, 0.003348985138032263,
      0.003268801422478729, 0.0031903420289469513, 0.00311357506880513, 0.0030384691124266793,
      0.0029649931857556313, 0.002893116766816901, 0.002822809782174038, 0.002754042603336996,
      0.0026867860431224197, 0.002621011351968954, 0.002556690214209995, 0.002493794744306305,
      0.00243229748304078, 0.0023721713936777347, 0.002313389858088947, 0.0022559266728487235,
      0.0021997560453001, 0.0021448525895943773, 0.0020911913227060963, 0.0020387476604254717,
      0.001987497413330323, 0.001937416782739479, 0.0018884823566495828, 0.0018406711056572096,
      0.0017939603788681162, 0.001748327899795431, 0.0017037517622486098, 0.0016602104262148129,
      0.0016176827137344306, 0.0015761478047723872, 0.0015355852330868464, 0.0014959748820968712,
      0.001457296980750563, 0.0014195320993951697, 0.0013826611456506177, 0.0013466653602878732,
      0.0013115263131134962, 0.0012772258988617128, 0.001243746333095337, 0.0012110701481167542,
      0.0011791801888902161, 0.0011480596089766058, 0.001117691866481844, 0.0010880607200200465,
      0.001059150224692475, 0.0010309447280833599, 0.001003428866273584, 0.0009765875598732037,
      0.0009504060100737303, 0.0009248696947210947, 0.00089996436441016, 0.0008756760386016163,
      0.0008519910017620717, 0.0008288957995281015, 0.0008063772348950203, 0.0007844223644310747,
      0.0007630184945177477, 0.0007421531776168175, 0.0007218142085648148, 0.0007019896208954637,
      0.0006826676831906661, 0.0006638368954605862, 0.0006454859855533397, 0.0006276039055947795,
      0.000610179828458829, 0.0005932031442688042, 0.0005766634569301406, 0.0005605505806949011,
      0.0005448545367584255, 0.0005295655498884626, 0.000514674045087103, 0.0005001706442857968,
      0.0004860461630737295, 0.00047229160745979894, 0.0004588981706684316, 0.000445857229969429,
      0.00043316034354204326, 0.00042079924737343605, 0.00040876585219167655, 0.0003970522404334046,
      0.00038565066324626403, 0.00037455353752620027, 0.00036375344298970067, 0.00035324311928103177,
      0.00034301546311451127, 0.00033306352545184423, 0.0003233805087145333, 0.00031395976403135624,
      0.0003047947885208891, 0.00029587922260903844, 0.00028720684738154403, 0.0002787715819713808,
      0.0002705674809809877, 0.00026258873193923856, 0.00025482965279305326, 0.00024728468943354277,
      0.00023994841325655853, 0.00023281551875751883, 0.00022588082116036564, 0.0002191392540805011,
      0.00021258586722153612, 0.00020621582410567757, 0.00020002439983757774, 0.00019400697890145104,
      0.00018815905299125616, 0.00018247621887374133, 0.00017695417628413716, 0.0001715887258542725,
      0.00016637576707288518, 0.00016131129627789266, 0.00015639140468037913, 0.00015161227642005386,
      0.00014697018665192095, 0.00014246149966390712, 0.00013808266702517921, 0.00013383022576488537],
    origin := 0.0,
    span := 4.0 }

/-! ### Shared helper lemmas -/

lemma svm_valid_iff_aux {F : Type} [LinearOrderedField F] (o t alpha beta : F) :
    (SVM o t alpha beta).valid = true ↔
      (0 ≤ (SVM o t alpha beta).tA ∧ (SVM o t alpha beta).tA ≤ 1
       ∧ 0 ≤ (SVM o t alpha beta).tB ∧ (SVM o t alpha beta).tB ≤ 1
       ∧ 0 ≤ (SVM o t alpha beta).tC ∧ (SVM o t alpha beta).tC ≤ 1) := by
  simp [SVM, Bool.and_eq_true, decide_eq_true_eq, and_assoc]

lemma testBit31_eq_of_lt {n : ℕ} (h : n < 2 ^ 32) :
    n.testBit 31 = decide (2 ^ 31 ≤ n) := by
  rw [Nat.testBit_to_div_mod, decide_eq_decide]
  omega

/-! ### Claims -/

/-- C4 counterexample: the probability-density table in the source has 512
entries, so its length is not 441 as claimed. -/
theorem pdf_table_length_ne_441 : pdf_table.table.length ≠ 441 := by
  have h : pdf_table.table.length = 512 := rfl
  omega

/-- C4 (amended): the static probability-density table contains exactly
512 floating-point entries, with an origin offset of 0.0 and a domain
span of 4.0. -/
theorem pdf_table_shape :
    pdf_table.table.length = 512 ∧ pdf_table.origin = 0 ∧ pdf_table.span = 4 := by
  refine ⟨rfl, ?_, ?_⟩
  · show (0.0 : ℚ) = 0
    norm_num
  · show (4.0 : ℚ) = 4
    norm_num

/-- C8: `fast_atan2 0 0 = 0`; the epsilon added to the denominator keeps
the divisor nonzero at the degenerate input, so the division is defined
and the result is the finite angle `0`. -/
theorem fast_atan2_zero_zero :
    max |(0 : ℚ)| |(0 : ℚ)| + flt_min ≠ 0 ∧ fast_atan2 0 0 = 0 := by
  constructor
  · norm_num [flt_min]
  · norm_num [fast_atan2]

/-- C9: with the current time fixed at `now_ms`, `deadline_to_timeout`
computes the 32-bit unsigned difference `deadline - now` and returns `0`
when its high bit is set (the deadline is elapsed) and the difference
itself otherwise; in particular it returns `0` at `deadline = now` and
`100` at `deadline = now + 100` (mod 2^32). -/
theorem deadline_to_timeout_spec (now_ms deadline_ms : ℕ)
    (hnow : now_ms < 2 ^ 32) :
    (deadline_to_timeout now_ms deadline_ms =
       if 2 ^ 31 ≤ u32_sub deadline_ms now_ms then 0 else u32_sub deadline_ms now_ms)
    ∧ deadline_to_timeout now_ms now_ms = 0
    ∧ deadline_to_timeout now_ms ((now_ms + 100) % 2 ^ 32) = 100 := by
  have hmod : ∀ a b : ℕ, u32_sub a b < 2 ^ 32 := by
    intro a b
    exact Nat.mod_lt _ (by norm_num)
  refine ⟨?_, ?_, ?_⟩
  · rw [deadline_to_timeout, testBit31_eq_of_lt (hmod deadline_ms now_ms)]
    by_cases hc : 2 ^ 31 ≤ u32_sub deadline_ms now_ms
    · simp [hc]
    · simp [hc]
  · have h0 : u32_sub now_ms now_ms = 0 := by
      rw [u32_sub]
      omega
    rw [deadline_to_timeout, h0]
    simp
  · have h100 : u32_sub ((now_ms + 100) % 2 ^ 32) now_ms = 100 := by
      rw [u32_sub]
      omega
    rw [deadline_to_timeout, h100]
    norm_num [Nat.testBit_to_div_mod]

/-- C9 witness at `now = 5`, `deadline = 5` and `5 + 100`. -/
theorem deadline_to_timeout_spec_witness :
    (5 : ℕ) < 2 ^ 32
    ∧ deadline_to_timeout 5 5 = 0
    ∧ deadline_to_timeout 5 ((5 + 100) % 2 ^ 32) = 100 :=
  ⟨by norm_num, (deadline_to_timeout_spec 5 5 (by norm_num)).2.1,
   (deadline_to_timeout_spec 5 5 (by norm_num)).2.2⟩

/-- C3: SVM reports `valid = true` iff all three duty cycles lie in
`[0, 1]`, and the returned triple is exactly the output of the
per-sextant formulas at the classified sextant, unmodified (no clamping
or saturation); the error is carried only as the boolean. -/
theorem svm_valid_iff_in_range_and_unclamped (alpha beta : ℝ) :
    ((SVM (Real.sqrt 3)⁻¹ (2 * (Real.sqrt 3)⁻¹) alpha beta).valid = true ↔
      (0 ≤ (SVM (Real.sqrt 3)⁻¹ (2 * (Real.sqrt 3)⁻¹) alpha beta).tA
       ∧ (SVM (Real.sqrt 3)⁻¹ (2 * (Real.sqrt 3)⁻¹) alpha beta).tA ≤ 1
       ∧ 0 ≤ (SVM (Real.sqrt 3)⁻¹ (2 * (Real.sqrt 3)⁻¹) alpha beta).tB
       ∧ (SVM (Real.sqrt 3)⁻¹ (2 * (Real.sqrt 3)⁻¹) alpha beta).tB ≤ 1
       ∧ 0 ≤ (SVM (Real.sqrt 3)⁻¹ (2 * (Real.sqrt 3)⁻¹) alpha beta).tC
       ∧ (SVM (Real.sqrt 3)⁻¹ (2 * (Real.sqrt 3)⁻¹) alpha beta).tC ≤ 1))
    ∧ ((SVM (Real.sqrt 3)⁻¹ (2 * (Real.sqrt 3)⁻¹) alpha beta).tA,
       (SVM (Real.sqrt 3)⁻¹ (2 * (Real.sqrt 3)⁻¹) alpha beta).tB,
       (SVM (Real.sqrt 3)⁻¹ (2 * (Real.sqrt 3)⁻¹) alpha beta).tC)
      = sextantFormulas (Real.sqrt 3)⁻¹ (2 * (Real.sqrt 3)⁻¹)
          (sextant (Real.sqrt 3)⁻¹ alpha beta) alpha beta :=
  ⟨svm_valid_iff_aux _ _ _ _, rfl⟩

/-- C1 counterexample: at `alpha = 1, beta = 0` the magnitude `1` is
strictly greater than `sqrt 3 / 2`, yet SVM returns `valid = true`
(the duty cycles are `(0, 1, 1)`, all inside `[0, 1]`): the claimed
property fails on the code. -/
theorem svm_unit_alpha_returns_valid :
    Real.sqrt 3 / 2 < 1
    ∧ (SVM (Real.sqrt 3)⁻¹ (2 * (Real.sqrt 3)⁻¹) (1 : ℝ) 0).valid = true := by
  constructor
  · have h2 : Real.sqrt 3 < 2 := (Real.sqrt_lt' (by norm_num)).mpr (by norm_num)
    linarith
  · have hsx : sextant ((Real.sqrt 3)⁻¹ : ℝ) 1 0 = 1 := by
      simp [sextant]
    simp [SVM, hsx, sextantFormulas, Bool.and_eq_true, decide_eq_true_eq]

/-- C1 (amended): along the alpha axis the validity threshold is the
hexagon vertex at magnitude 1, not the inscribed-circle radius
`sqrt 3 / 2`: for `beta = 0` and `|alpha| > 1` SVM reports
`valid = false`. -/
theorem svm_alpha_axis_beyond_one_invalid (alpha : ℝ) (h : 1 < |alpha|) :
    (SVM (Real.sqrt 3)⁻¹ (2 * (Real.sqrt 3)⁻¹) alpha 0).valid = false := by
  rcases le_or_lt 0 alpha with ha | ha
  · have h1 : 1 < alpha := by rwa [abs_of_nonneg ha] at h
    have hsx : sextant ((Real.sqrt 3)⁻¹ : ℝ) alpha 0 = 1 := by
      have hna : ¬ (alpha < (Real.sqrt 3)⁻¹ * 0) := by
        rw [mul_zero]
        linarith
      simp [sextant, ha, hna]
    have htA : (SVM (Real.sqrt 3)⁻¹ (2 * (Real.sqrt 3)⁻¹) alpha 0).tA
        = (1 - alpha) * (1 / 2) := by
      simp only [SVM, hsx, sextantFormulas]
      ring
    rw [← Bool.not_eq_true, svm_valid_iff_aux]
    intro hcon
    rw [htA] at hcon
    nlinarith [hcon.1]
  · have h1 : alpha < -1 := by
      rw [abs_of_neg ha] at h
      linarith
    have hsx : sextant ((Real.sqrt 3)⁻¹ : ℝ) alpha 0 = 3 := by
      have hna : ¬ (0 ≤ alpha) := not_le.mpr ha
      have hlt : alpha < -((Real.sqrt 3)⁻¹) * 0 := by
        rw [neg_mul, mul_zero, neg_zero]
        linarith
      simp [sextant, hna, hlt]
    have htB : (SVM (Real.sqrt 3)⁻¹ (2 * (Real.sqrt 3)⁻¹) alpha 0).tB
        = (1 + alpha) * (1 / 2) := by
      simp only [SVM, hsx, sextantFormulas]
      ring
    rw [← Bool.not_eq_true, svm_valid_iff_aux]
    intro hcon
    rw [htB] at hcon
    nlinarith [hcon.2.2.1]

/-- C1 amended-claim witness at `alpha = 2, beta = 0`. -/
theorem svm_alpha_axis_beyond_one_invalid_witness :
    1 < |(2 : ℝ)|
    ∧ (SVM (Real.sqrt 3)⁻¹ (2 * (Real.sqrt 3)⁻¹) (2 : ℝ) 0).valid = false :=
  ⟨by norm_num, svm_alpha_axis_beyond_one_invalid 2 (by norm_num)⟩

/-- C6: sextant classification resolves points on a boundary ray via the
`else` branch of the strict comparison: on the tested rays, boundary
points go to the lower-numbered neighbour in quadrants I and II
(sextants 1 and 2) and to the higher-numbered neighbour in quadrants IV
and III (sextants 6 and 5); in particular every point with
`alpha = (1/sqrt 3) * beta`, `beta ≥ 0` (hence `alpha ≥ 0`) is
classified into sextant 1, not 2. -/
theorem sextant_boundary_ties (beta : ℝ) :
    (0 ≤ beta →
      sextant (Real.sqrt 3)⁻¹ ((Real.sqrt 3)⁻¹ * beta) beta = 1)
    ∧ (0 < beta →
      sextant (Real.sqrt 3)⁻¹ (-((Real.sqrt 3)⁻¹ * beta)) beta = 2)
    ∧ (beta < 0 →
      sextant (Real.sqrt 3)⁻¹ (-((Real.sqrt 3)⁻¹ * beta)) beta = 6)
    ∧ (beta < 0 →
      sextant (Real.sqrt 3)⁻¹ ((Real.sqrt 3)⁻¹ * beta) beta = 5) := by
  have ho0 : (0 : ℝ) < (Real.sqrt 3)⁻¹ := inv_pos.mpr (Real.sqrt_pos.mpr (by norm_num))
  refine ⟨?_, ?_, ?_, ?_⟩
  · intro hb
    have ha : 0 ≤ (Real.sqrt 3)⁻¹ * beta := mul_nonneg ho0.le hb
    simp [sextant, hb, ha, lt_irrefl]
  · intro hb
    have ha : ¬ (0 ≤ -((Real.sqrt 3)⁻¹ * beta)) := by
      rw [not_le, neg_lt, neg_zero]
      exact mul_pos ho0 hb
    have hne : ¬ (-((Real.sqrt 3)⁻¹ * beta) < -(Real.sqrt 3)⁻¹ * beta) := by
      rw [neg_mul]
      exact lt_irrefl _
    simp [sextant, hb.le, ha, hne]
  · intro hb
    have hnb : ¬ (0 ≤ beta) := not_le.mpr hb
    have ha : 0 ≤ -((Real.sqrt 3)⁻¹ * beta) := by
      rw [le_neg, neg_zero]
      exact (mul_neg_of_pos_of_neg ho0 hb).le
    have hne : ¬ (-((Real.sqrt 3)⁻¹ * beta) < -(Real.sqrt 3)⁻¹ * beta) := by
      rw [neg_mul]
      exact lt_irrefl _
    simp [sextant, hnb, ha, hne]
  · intro hb
    have hnb : ¬ (0 ≤ beta) := not_le.mpr hb
    have ha : ¬ (0 ≤ (Real.sqrt 3)⁻¹ * beta) :=
      not_le.mpr (mul_neg_of_pos_of_neg ho0 hb)
    simp [sextant, hnb, ha, lt_irrefl]

/-- C6 witness at `beta = 3` and `beta = -3`. -/
theorem sextant_boundary_ties_witness :
    ((0 : ℝ) ≤ 3
      ∧ sextant (Real.sqrt 3)⁻¹ ((Real.sqrt 3)⁻¹ * 3) 3 = 1)
    ∧ ((0 : ℝ) < 3
      ∧ sextant (Real.sqrt 3)⁻¹ (-((Real.sqrt 3)⁻¹ * 3)) 3 = 2)
    ∧ ((-3 : ℝ) < 0
      ∧ sextant (Real.sqrt 3)⁻¹ (-((Real.sqrt 3)⁻¹ * (-3))) (-3) = 6)
    ∧ ((-3 : ℝ) < 0
      ∧ sextant (Real.sqrt 3)⁻¹ ((Real.sqrt 3)⁻¹ * (-3)) (-3) = 5) :=
  ⟨⟨by norm_num, (sextant_boundary_ties 3).1 (by norm_num)⟩,
   ⟨by norm_num, (sextant_boundary_ties 3).2.1 (by norm_num)⟩,
   ⟨by norm_num, (sextant_boundary_ties (-3)).2.2.1 (by norm_num)⟩,
   ⟨by norm_num, (sextant_boundary_ties (-3)).2.2.2 (by norm_num)⟩⟩

/-- C7: the per-sextant duty-cycle formulas agree exactly on the
boundary rays between adjacent sextants (seams 1-2 and 4-5 on
`alpha = (1/sqrt 3) * beta`, seams 2-3 and 5-6 on
`alpha = -((1/sqrt 3) * beta)`, seams 3-4 and 6-1 on `beta = 0`), so the
duty cycles vary continuously across every seam: each formula is affine
in `(alpha, beta)` and the two formulas coincide at the seam. -/
theorem sextant_seam_agreement (alpha beta : ℝ) :
    (alpha = (Real.sqrt 3)⁻¹ * beta →
      sextantFormulas (Real.sqrt 3)⁻¹ (2 * (Real.sqrt 3)⁻¹) 1 alpha beta
        = sextantFormulas (Real.sqrt 3)⁻¹ (2 * (Real.sqrt 3)⁻¹) 2 alpha beta
      ∧ sextantFormulas (Real.sqrt 3)⁻¹ (2 * (Real.sqrt 3)⁻¹) 4 alpha beta
        = sextantFormulas (Real.sqrt 3)⁻¹ (2 * (Real.sqrt 3)⁻¹) 5 alpha beta)
    ∧ (alpha = -((Real.sqrt 3)⁻¹ * beta) →
      sextantFormulas (Real.sqrt 3)⁻¹ (2 * (Real.sqrt 3)⁻¹) 2 alpha beta
        = sextantFormulas (Real.sqrt 3)⁻¹ (2 * (Real.sqrt 3)⁻¹) 3 alpha beta
      ∧ sextantFormulas (Real.sqrt 3)⁻¹ (2 * (Real.sqrt 3)⁻¹) 5 alpha beta
        = sextantFormulas (Real.sqrt 3)⁻¹ (2 * (Real.sqrt 3)⁻¹) 6 alpha beta)
    ∧ (beta = 0 →
      sextantFormulas (Real.sqrt 3)⁻¹ (2 * (Real.sqrt 3)⁻¹) 3 alpha beta
        = sextantFormulas (Real.sqrt 3)⁻¹ (2 * (Real.sqrt 3)⁻¹) 4 alpha beta
      ∧ sextantFormulas (Real.sqrt 3)⁻¹ (2 * (Real.sqrt 3)⁻¹) 6 alpha beta
        = sextantFormulas (Real.sqrt 3)⁻¹ (2 * (Real.sqrt 3)⁻¹) 1 alpha beta) := by
  refine ⟨?_, ?_, ?_⟩ <;> intro h <;> subst h <;>
    constructor <;>
    · simp only [sextantFormulas, Prod.mk.injEq]
      refine ⟨by ring, by ring, by ring⟩

/-- C7 witness: seam agreement evaluated on concrete seam points
(`beta = 3` on the diagonal seams, `alpha = 7` on the axis seams). -/
theorem sextant_seam_agreement_witness :
    (sextantFormulas (Real.sqrt 3)⁻¹ (2 * (Real.sqrt 3)⁻¹) 1 ((Real.sqrt 3)⁻¹ * 3) 3
       = sextantFormulas (Real.sqrt 3)⁻¹ (2 * (Real.sqrt 3)⁻¹) 2 ((Real.sqrt 3)⁻¹ * 3) 3)
    ∧ (sextantFormulas (Real.sqrt 3)⁻¹ (2 * (Real.sqrt 3)⁻¹) 2 (-((Real.sqrt 3)⁻¹ * 3)) 3
       = sextantFormulas (Real.sqrt 3)⁻¹ (2 * (Real.sqrt 3)⁻¹) 3 (-((Real.sqrt 3)⁻¹ * 3)) 3)
    ∧ (sextantFormulas (Real.sqrt 3)⁻¹ (2 * (Real.sqrt 3)⁻¹) 6 (7 : ℝ) 0
       = sextantFormulas (Real.sqrt 3)⁻¹ (2 * (Real.sqrt 3)⁻¹) 1 (7 : ℝ) 0) :=
  ⟨((sextant_seam_agreement ((Real.sqrt 3)⁻¹ * 3) 3).1 rfl).1,
   ((sextant_seam_agreement (-((Real.sqrt 3)⁻¹ * 3)) 3).2.1 rfl).1,
   ((sextant_seam_agreement (7 : ℝ) 0).2.2 rfl).2⟩

/-- C2: for every input with `alpha^2 + beta^2 ≤ 3/4` (magnitude at most
`sqrt 3 / 2`), SVM reports `valid = true` and each duty cycle `tA`,
`tB`, `tC` individually lies in `[0, 1]`. -/
theorem svm_disc_valid_and_in_range (alpha beta : ℝ)
    (h : alpha ^ 2 + beta ^ 2 ≤ 3 / 4) :
    (SVM (Real.sqrt 3)⁻¹ (2 * (Real.sqrt 3)⁻¹) alpha beta).valid = true
    ∧ (0 ≤ (SVM (Real.sqrt 3)⁻¹ (2 * (Real.sqrt 3)⁻¹) alpha beta).tA
       ∧ (SVM (Real.sqrt 3)⁻¹ (2 * (Real.sqrt 3)⁻¹) alpha beta).tA ≤ 1
       ∧ 0 ≤ (SVM (Real.sqrt 3)⁻¹ (2 * (Real.sqrt 3)⁻¹) alpha beta).tB
       ∧ (SVM (Real.sqrt 3)⁻¹ (2 * (Real.sqrt 3)⁻¹) alpha beta).tB ≤ 1
       ∧ 0 ≤ (SVM (Real.sqrt 3)⁻¹ (2 * (Real.sqrt 3)⁻¹) alpha beta).tC
       ∧ (SVM (Real.sqrt 3)⁻¹ (2 * (Real.sqrt 3)⁻¹) alpha beta).tC ≤ 1) := by
  set o := (Real.sqrt 3)⁻¹ with ho
  have ho0 : (0 : ℝ) < o := by
    rw [ho]
    exact inv_pos.mpr (Real.sqrt_pos.mpr (by norm_num))
  have ho2 : o ^ 2 = 1 / 3 := by
    rw [ho, inv_pow]
    norm_num [Real.sq_sqrt]
  have e1 : (o * alpha) ^ 2 = alpha ^ 2 / 3 := by rw [mul_pow, ho2]; ring
  have e2 : (o * beta) ^ 2 = beta ^ 2 / 3 := by rw [mul_pow, ho2]; ring
  have ha2 : alpha ^ 2 ≤ 3 / 4 := by nlinarith [sq_nonneg beta]
  have hb2 : beta ^ 2 ≤ 3 / 4 := by nlinarith [sq_nonneg alpha]
  have h2ob_ub : 2 * (o * beta) ≤ 1 := by
    nlinarith [sq_nonneg (2 * (o * beta) - 1), e2]
  have h2ob_lb : -1 ≤ 2 * (o * beta) := by
    nlinarith [sq_nonneg (2 * (o * beta) + 1), e2]
  have halpha_ub : alpha ≤ 1 := by nlinarith [sq_nonneg (alpha - 1)]
  have halpha_lb : -1 ≤ alpha := by nlinarith [sq_nonneg (alpha + 1)]
  have hsum_ub : alpha + o * beta ≤ 1 := by
    nlinarith [sq_nonneg (o * alpha - beta), sq_nonneg (alpha + o * beta - 1), e1, e2]
  have hsum_lb : -1 ≤ alpha + o * beta := by
    nlinarith [sq_nonneg (o * alpha - beta), sq_nonneg (alpha + o * beta + 1), e1, e2]
  have hdiff_ub : alpha - o * beta ≤ 1 := by
    nlinarith [sq_nonneg (o * alpha + beta), sq_nonneg (alpha - o * beta - 1), e1, e2]
  have hdiff_lb : -1 ≤ alpha - o * beta := by
    nlinarith [sq_nonneg (o * alpha + beta), sq_nonneg (alpha - o * beta + 1), e1, e2]
  have key : 0 ≤ (SVM o (2 * o) alpha beta).tA
      ∧ (SVM o (2 * o) alpha beta).tA ≤ 1
      ∧ 0 ≤ (SVM o (2 * o) alpha beta).tB
      ∧ (SVM o (2 * o) alpha beta).tB ≤ 1
      ∧ 0 ≤ (SVM o (2 * o) alpha beta).tC
      ∧ (SVM o (2 * o) alpha beta).tC ≤ 1 := by
    by_cases hbeta : 0 ≤ beta
    · have hob : 0 ≤ o * beta := mul_nonneg ho0.le hbeta
      by_cases halpha : 0 ≤ alpha
      · by_cases hray : alpha < o * beta
        · -- sextant 2 via quadrant I
          have hsx : sextant o alpha beta = 2 := by
            simp [sextant, hbeta, halpha, hray]
          refine ⟨?_, ?_, ?_, ?_, ?_, ?_⟩ <;>
            · simp only [SVM, hsx, sextantFormulas]
              linarith [h2ob_ub, h2ob_lb]
        · -- sextant 1
          rw [not_lt] at hray
          have hsx : sextant o alpha beta = 1 := by
            simp [sextant, hbeta, halpha, not_lt.mpr hray]
          refine ⟨?_, ?_, ?_, ?_, ?_, ?_⟩ <;>
            · simp only [SVM, hsx, sextantFormulas]
              linarith [hsum_ub, hsum_lb, h2ob_ub, halpha_ub]
      · by_cases hray : alpha < -o * beta
        · -- sextant 3
          have hray2 : alpha < -(o * beta) := by rwa [neg_mul] at hray
          have hsx : sextant o alpha beta = 3 := by
            simp [sextant, hbeta, halpha, hray2]
          refine ⟨?_, ?_, ?_, ?_, ?_, ?_⟩ <;>
            · simp only [SVM, hsx, sextantFormulas]
              linarith [hdiff_ub, hdiff_lb, h2ob_ub, halpha_lb]
        · -- sextant 2 via quadrant II
          rw [not_lt] at hray
          have hray2 : -(o * beta) ≤ alpha := by rwa [neg_mul] at hray
          have hsx : sextant o alpha beta = 2 := by
            simp [sextant, hbeta, halpha, not_lt.mpr hray2]
          refine ⟨?_, ?_, ?_, ?_, ?_, ?_⟩ <;>
            · simp only [SVM, hsx, sextantFormulas]
              linarith [h2ob_ub, h2ob_lb, not_le.mp halpha]
    · have hbneg : beta < 0 := not_le.mp hbeta
      have hob : o * beta < 0 := mul_neg_of_pos_of_neg ho0 hbneg
      by_cases halpha : 0 ≤ alpha
      · by_cases hray : alpha < -o * beta
        · -- sextant 5 via quadrant IV
          have hray2 : alpha < -(o * beta) := by rwa [neg_mul] at hray
          have hsx : sextant o alpha beta = 5 := by
            simp [sextant, hbeta, halpha, hray2]
          refine ⟨?_, ?_, ?_, ?_, ?_, ?_⟩ <;>
            · simp only [SVM, hsx, sextantFormulas]
              linarith [h2ob_ub, h2ob_lb]
        · -- sextant 6
          rw [not_lt] at hray
          have hray2 : -(o * beta) ≤ alpha := by rwa [neg_mul] at hray
          have hsx : sextant o alpha beta = 6 := by
            simp [sextant, hbeta, halpha, not_lt.mpr hray2]
          refine ⟨?_, ?_, ?_, ?_, ?_, ?_⟩ <;>
            · simp only [SVM, hsx, sextantFormulas]
              linarith [hdiff_ub, hdiff_lb, h2ob_lb, halpha_ub]
      · by_cases hray : alpha < o * beta
        · -- sextant 4
          have hsx : sextant o alpha beta = 4 := by
            simp [sextant, hbeta, halpha, hray]
          refine ⟨?_, ?_, ?_, ?_, ?_, ?_⟩ <;>
            · simp only [SVM, hsx, sextantFormulas]
              linarith [hsum_ub, hsum_lb, h2ob_lb, halpha_lb]
        · -- sextant 5 via quadrant III
          rw [not_lt] at hray
          have hsx : sextant o alpha beta = 5 := by
            simp [sextant, hbeta, halpha, not_lt.mpr hray]
          refine ⟨?_, ?_, ?_, ?_, ?_, ?_⟩ <;>
            · simp only [SVM, hsx, sextantFormulas]
              linarith [h2ob_ub, h2ob_lb, not_le.mp halpha]
  exact ⟨(svm_valid_iff_aux o (2 * o) alpha beta).mpr key, key⟩

/-- C2 witness at the origin: duty cycles `(1/2, 1/2, 1/2)`, valid. -/
theorem svm_disc_valid_and_in_range_witness :
    ((0 : ℝ) ^ 2 + 0 ^ 2 ≤ 3 / 4)
    ∧ ((SVM (Real.sqrt 3)⁻¹ (2 * (Real.sqrt 3)⁻¹) (0 : ℝ) 0).valid = true
       ∧ (0 ≤ (SVM (Real.sqrt 3)⁻¹ (2 * (Real.sqrt 3)⁻¹) (0 : ℝ) 0).tA
          ∧ (SVM (Real.sqrt 3)⁻¹ (2 * (Real.sqrt 3)⁻¹) (0 : ℝ) 0).tA ≤ 1
          ∧ 0 ≤ (SVM (Real.sqrt 3)⁻¹ (2 * (Real.sqrt 3)⁻¹) (0 : ℝ) 0).tB
          ∧ (SVM (Real.sqrt 3)⁻¹ (2 * (Real.sqrt 3)⁻¹) (0 : ℝ) 0).tB ≤ 1
          ∧ 0 ≤ (SVM (Real.sqrt 3)⁻¹ (2 * (Real.sqrt 3)⁻¹) (0 : ℝ) 0).tC
          ∧ (SVM (Real.sqrt 3)⁻¹ (2 * (Real.sqrt 3)⁻¹) (0 : ℝ) 0).tC ≤ 1)) :=
  ⟨by norm_num, svm_disc_valid_and_in_range 0 0 (by norm_num)⟩

lemma atan_poly_bounds (a : ℚ) (ha0 : 0 ≤ a) (ha1 : a ≤ 1) :
    0 ≤ ((-0.0464964749 * (a * a) + 0.15931422) * (a * a) - 0.327622764) * (a * a) * a + a
    ∧ ((-0.0464964749 * (a * a) + 0.15931422) * (a * a) - 0.327622764) * (a * a) * a + a ≤ a
    ∧ (0 < a →
        0 < ((-0.0464964749 * (a * a) + 0.15931422) * (a * a) - 0.327622764) * (a * a) * a + a) := by
  have hs0 : 0 ≤ a * a := mul_nonneg ha0 ha0
  have hs1 : a * a ≤ 1 := by nlinarith
  have hss : a * a * (a * a) ≤ a * a := by nlinarith
  have hs4 : 0 ≤ a * a * (a * a) := mul_nonneg hs0 hs0
  have hs4_le1 : a * a * (a * a) ≤ 1 := mul_le_one₀ hs1 hs0 hs1
  have hs6 : a * a * (a * a) * (a * a) ≤ 1 := mul_le_one₀ hs4_le1 hs0 hs1
  have hs6nn : 0 ≤ a * a * (a * a) * (a * a) := mul_nonneg hs4 hs0
  have hfac_pos : 0 < 1 + (-0.327622764) * (a * a) + 0.15931422 * (a * a * (a * a))
      + (-0.0464964749) * (a * a * (a * a) * (a * a)) := by
    nlinarith [hs1, hs4, hs6]
  have hT_nonpos : (-0.327622764) * (a * a) + 0.15931422 * (a * a * (a * a))
      + (-0.0464964749) * (a * a * (a * a) * (a * a)) ≤ 0 := by
    nlinarith [hss, hs0, hs6nn]
  refine ⟨?_, ?_, ?_⟩
  · nlinarith [mul_nonneg ha0 hfac_pos.le]
  · nlinarith [mul_nonneg ha0 (neg_nonneg.mpr hT_nonpos)]
  · intro hap
    nlinarith [mul_pos hap hfac_pos]

/-- C5: `fast_atan2` computes `a = min(|x|,|y|) / (max(|x|,|y|) + eps)`,
evaluates the cubic-in-`s = a*a` polynomial with exactly the constants
`-0.0464964749`, `0.15931422`, `-0.327622764`, applies the three
corrections in order (octant unfold, quadrant correction, sign
correction), and the returned angle lies in `(-pi, pi]` where `pi`
denotes the code's single-precision constant `3.14159274` (`1.57079637`
for `pi/2`), exactly as in the source. -/
theorem fast_atan2_formula_and_range (y x : ℚ) :
    fast_atan2 y x =
      (let a := min |x| |y| / (max |x| |y| + flt_min)
       let s := a * a
       let r := ((-0.0464964749 * s + 0.15931422) * s - 0.327622764) * s * a + a
       let r1 := if |x| < |y| then 1.57079637 - r else r
       let r2 := if x < 0 then 3.14159274 - r1 else r1
       if y < 0 then -r2 else r2)
    ∧ -3.14159274 < fast_atan2 y x ∧ fast_atan2 y x ≤ 3.14159274 := by
  refine ⟨rfl, ?_⟩
  have hfm : (0 : ℚ) < flt_min := by norm_num [flt_min]
  have hden : (0 : ℚ) < max |x| |y| + flt_min := by
    have h0 : (0 : ℚ) ≤ max |x| |y| := le_trans (abs_nonneg x) (le_max_left _ _)
    linarith
  simp only [fast_atan2]
  set a := min |x| |y| / (max |x| |y| + flt_min) with ha_def
  have ha0 : 0 ≤ a :=
    div_nonneg (le_min (abs_nonneg x) (abs_nonneg y)) hden.le
  have ha1 : a ≤ 1 := by
    rw [ha_def, div_le_one hden]
    have h1 : min |x| |y| ≤ max |x| |y| := min_le_max
    linarith
  obtain ⟨hp0, hpa, hppos⟩ := atan_poly_bounds a ha0 ha1
  split_ifs with h1 h2 h3
  · constructor <;> linarith
  · -- y < 0, x < 0, |y| ≤ |x|: the strict lower end needs `r > 0`,
    -- which holds because `y ≠ 0` forces `a > 0`.
    have hy : 0 < |y| := abs_pos.mpr (ne_of_lt h1)
    have hmin : min |x| |y| = |y| := min_eq_right (not_lt.mp h3)
    have hap : 0 < a := by
      rw [ha_def, hmin]
      exact div_pos hy hden
    constructor <;> linarith [hppos hap]
  · constructor <;> linarith
  · constructor <;> linarith
  · constructor <;> linarith
  · constructor <;> linarith
  · constructor <;> linarith
  · constructor <;> linarith

/-- C10: if either input of SVM is NaN, a sextant is still selected
(every comparison involving NaN is false and takes the `else` branch),
the three duty cycles are computed as NaN, and since NaN fails every
range comparison the validity flag is `false`: non-finite inputs are
never reported as a valid modulation. The result is a fully defined
tuple for any constants. -/
theorem svm_fp_nan_invalid (o3 t3 : ℚ) (alpha beta : FP)
    (h : alpha = none ∨ beta = none) :
    (SVM_fp o3 t3 alpha beta).valid = false
    ∧ (SVM_fp o3 t3 alpha beta).tA = none
    ∧ (SVM_fp o3 t3 alpha beta).tB = none
    ∧ (SVM_fp o3 t3 alpha beta).tC = none := by
  rcases h with h | h
  · subst h
    rcases beta with _ | b
    · simp [SVM_fp, sextant_fp, sextantFormulas_fp, fge, fgt, fle, fmul, fadd, fsub, fneg]
    · rcases le_or_lt 0 b with hb | hb
      · simp [SVM_fp, sextant_fp, sextantFormulas_fp, fge, fgt, fle, fmul, fadd, fsub, fneg, hb]
      · simp [SVM_fp, sextant_fp, sextantFormulas_fp, fge, fgt, fle, fmul, fadd, fsub, fneg,
              not_le.mpr hb]
  · subst h
    rcases alpha with _ | a
    · simp [SVM_fp, sextant_fp, sextantFormulas_fp, fge, fgt, fle, fmul, fadd, fsub, fneg]
    · rcases le_or_lt 0 a with ha | ha
      · simp [SVM_fp, sextant_fp, sextantFormulas_fp, fge, fgt, fle, fmul, fadd, fsub, fneg, ha]
      · simp [SVM_fp, sextant_fp, sextantFormulas_fp, fge, fgt, fle, fmul, fadd, fsub, fneg,
              not_le.mpr ha]

/-- C10 witness: NaN `alpha` with finite `beta = 0`, at the float values
of the firmware's constants. -/
theorem svm_fp_nan_invalid_witness :
    ((none : FP) = none ∨ (some (0 : ℚ) : FP) = none)
    ∧ (SVM_fp 0.57735026919 1.15470053838 none (some 0)).valid = false
    ∧ (SVM_fp 0.57735026919 1.15470053838 none (some 0)).tA = none
    ∧ (SVM_fp 0.57735026919 1.15470053838 none (some 0)).tB = none
    ∧ (SVM_fp 0.57735026919 1.15470053838 none (some 0)).tC = none :=
  ⟨Or.inl rfl,
   (svm_fp_nan_invalid 0.57735026919 1.15470053838 none (some 0) (Or.inl rfl)).1,
   (svm_fp_nan_invalid 0.57735026919 1.15470053838 none (some 0) (Or.inl rfl)).2.1,
   (svm_fp_nan_invalid 0.57735026919 1.15470053838 none (some 0) (Or.inl rfl)).2.2.1,
   (svm_fp_nan_invalid 0.57735026919 1.15470053838 none (some 0) (Or.inl rfl)).2.2.2⟩
